import Mathlib

/-!
A shallow embedding of the student-course management program
(`student_management` package: models, services, file handler) and proofs
about it.  Python strings are modelled as Lean `String`/`List Char`,
Python `float` grades as `ℚ`, Python `datetime` as an explicit record of
calendar fields, Python dictionaries produced by `to_dict` as flat Lean
structures, and each service's mutable state (its in-memory list plus the
backing JSON document's data array) as a record threaded through the
operations.  Fallible operations return `Except String` carrying the
exact `ValueError` message the Python code builds.
-/

namespace StudentManagement

/-- Python `not s or not s.strip()` for a `str` field: true iff the string
is empty or `strip()` leaves nothing, i.e. every character is whitespace
(`Char.isWhitespace` covers the space/tab/newline/CR whitespace occurring
in this program's data). -/
def isBlank (s : String) : Bool := s.toList.all Char.isWhitespace

/-- `"; ".join(errors)` -/
def joinSemi (errors : List String) : String := String.intercalate "; " errors

/-- The decimal digit character for `d` (used by `datetime.isoformat`'s
zero-padded fields). -/
def digitChar (d : Nat) : Char := Char.ofNat (48 + d)

/-- Zero-padded fixed-width decimal rendering of `n` (most significant
digit first), as Python's `%04d`-style formatting inside `isoformat`. -/
def padChars : Nat → Nat → List Char
  | 0, _ => []
  | w + 1, n => digitChar (n / 10 ^ w) :: padChars w (n % 10 ^ w)

/-- Parse exactly `w` decimal digits from the front of `cs`, accumulating
onto `acc`; returns the value and the remaining characters.  This is the
fixed-width numeric scan performed by `datetime.fromisoformat`. -/
def parseFixed : Nat → Nat → List Char → Option (Nat × List Char)
  | 0, acc, cs => some (acc, cs)
  | _ + 1, _, [] => none
  | w + 1, acc, c :: cs =>
      if c.isDigit then parseFixed w (acc * 10 + (c.toNat - 48)) cs else none

/-- Consume one expected literal character (the `-`, `:`, `T`, `.`
separators of an ISO-8601 timestamp). -/
def expectChar (c : Char) : List Char → Option (List Char)
  | [] => none
  | x :: xs => if x = c then some xs else none

/-- Python `datetime` (naive, as produced by `datetime.now()`): the seven
calendar/clock fields. -/
structure DateTime where
  year : Nat
  month : Nat
  day : Nat
  hour : Nat
  minute : Nat
  second : Nat
  microsecond : Nat
deriving DecidableEq, Repr

/-- The field ranges `datetime` itself guarantees (`MINYEAR = 1`,
`MAXYEAR = 9999`, microseconds below one million). -/
def DateTime.Valid (d : DateTime) : Prop :=
  1 ≤ d.year ∧ d.year ≤ 9999 ∧ 1 ≤ d.month ∧ d.month ≤ 12 ∧
  1 ≤ d.day ∧ d.day ≤ 31 ∧ d.hour ≤ 23 ∧ d.minute ≤ 59 ∧
  d.second ≤ 59 ∧ d.microsecond ≤ 999999

instance (d : DateTime) : Decidable d.Valid := by
  unfold DateTime.Valid; infer_instance

/-- `datetime.isoformat()`: `YYYY-MM-DDTHH:MM:SS`, with `.ffffff`
appended only when the microsecond field is nonzero. -/
def DateTime.isoChars (d : DateTime) : List Char :=
  padChars 4 d.year ++ ('-' :: (padChars 2 d.month ++ ('-' :: (padChars 2 d.day ++
    ('T' :: (padChars 2 d.hour ++ (':' :: (padChars 2 d.minute ++ (':' ::
      (padChars 2 d.second ++
        (if d.microsecond = 0 then [] else '.' :: padChars 6 d.microsecond)))))))))))

def DateTime.isoformat (d : DateTime) : String := String.mk d.isoChars

/-- `datetime.fromisoformat` restricted to the shapes `isoformat` emits
(date `T` time, optional fractional part); returns `none` where Python
raises `ValueError`. -/
def DateTime.fromIsoChars (cs : List Char) : Option DateTime := do
  let (y, cs) ← parseFixed 4 0 cs
  let cs ← expectChar '-' cs
  let (mo, cs) ← parseFixed 2 0 cs
  let cs ← expectChar '-' cs
  let (da, cs) ← parseFixed 2 0 cs
  let cs ← expectChar 'T' cs
  let (h, cs) ← parseFixed 2 0 cs
  let cs ← expectChar ':' cs
  let (mi, cs) ← parseFixed 2 0 cs
  let cs ← expectChar ':' cs
  let (s, cs) ← parseFixed 2 0 cs
  match cs with
  | [] => some ⟨y, mo, da, h, mi, s, 0⟩
  | '.' :: rest => do
      let (us, rest) ← parseFixed 6 0 rest
      if rest = [] then some ⟨y, mo, da, h, mi, s, us⟩ else none
  | _ => none

def DateTime.fromisoformat (s : String) : Option DateTime :=
  DateTime.fromIsoChars s.toList

/-!
### Regular-expression models

`re.match(r"^...$", s)` anchors at the start, and Python's `$` matches at
the very end of the string or just before one final newline.  So the
whole-string tests used by the models accept `body` or `body ++ "\n"`
where `body` matches the pattern's core.  `pyDollarMatch` captures this.
-/

/-- `bool(re.match("^" ++ core ++ "$", s))`: the core pattern must cover
the whole string, or the whole string minus a single trailing newline
(Python's `$` semantics). -/
def pyDollarMatch (core : List Char → Bool) (cs : List Char) : Bool :=
  core cs || (decide (cs.getLast? = some '\n') && core cs.dropLast)

/-- Core of `^[A-Z]{3}\d{4}$`: exactly three ASCII uppercase letters
followed by exactly four digits.  (`\d` on ASCII input is `isDigit`;
no non-ASCII codes appear in this development.) -/
def courseCodeCore (cs : List Char) : Bool :=
  decide (cs.length = 7) &&
  (cs.take 3).all (fun c => decide ('A' ≤ c) && decide (c ≤ 'Z')) &&
  (cs.drop 3).all Char.isDigit

/-- Character class `[a-zA-Z0-9._%+-]` (local part of the email regex). -/
def localChar (c : Char) : Bool :=
  c.isAlpha || c.isDigit || decide (c ∈ (['.', '_', '%', '+', '-'] : List Char))

/-- Character class `[a-zA-Z0-9.-]` (domain part of the email regex). -/
def domainChar (c : Char) : Bool :=
  c.isAlpha || c.isDigit || decide (c = '.') || decide (c = '-')

/-- Core of `^[a-zA-Z0-9._%+-]+@[a-zA-Z0-9.-]+\.[a-zA-Z]{2,}$`.
Because neither character class contains `@`, a match splits at the
unique `@`; because `[a-zA-Z]{2,}` contains no dot and runs to the end,
the explicit `\.` is the last dot after the `@`.  The matcher implements
that deterministic decomposition. -/
def emailCore (cs : List Char) : Bool :=
  match cs.span (fun c => c != '@') with
  | (lo, '@' :: dom) =>
      !lo.isEmpty && lo.all localChar &&
      (match dom.reverse.span (fun c => c != '.') with
       | (tRev, '.' :: dRev) =>
           !dRev.isEmpty && (dRev.reverse).all domainChar &&
           decide (2 ≤ tRev.length) && tRev.all Char.isAlpha
       | _ => false)
  | _ => false

/-!
### Entity models (`models/student.py`, `models/course.py`,
`models/enrollment.py`)
-/

/-- `Student`: id, name, email, program (all `str`). -/
structure Student where
  student_id : String
  name : String
  email : String
  program : String
deriving DecidableEq, Repr

/-- `Student._is_valid_email`. -/
def Student.is_valid_email (email : String) : Bool :=
  pyDollarMatch emailCore email.toList

/-- `Student.validate`: the exact error messages, in source order. -/
def Student.validate (s : Student) : List String :=
  (if isBlank s.student_id then ["Student ID is required and cannot be empty"] else []) ++
  (if isBlank s.name then ["Name is required and cannot be empty"] else []) ++
  (if isBlank s.email then ["Email is required and cannot be empty"]
   else if !Student.is_valid_email s.email then ["Email format is invalid"] else []) ++
  (if isBlank s.program then ["Program is required and cannot be empty"] else [])

/-- The flat dictionary `Student.to_dict` produces. -/
structure StudentDict where
  student_id : String
  name : String
  email : String
  program : String
deriving DecidableEq, Repr

def Student.to_dict (s : Student) : StudentDict :=
  ⟨s.student_id, s.name, s.email, s.program⟩

def Student.from_dict (d : StudentDict) : Student :=
  ⟨d.student_id, d.name, d.email, d.program⟩

/-- `Course`: code, name, credits (`int`, modelled as `Int`), instructor. -/
structure Course where
  course_code : String
  name : String
  credits : Int
  instructor : String
deriving DecidableEq, Repr

/-- `Course._is_valid_course_code`. -/
def Course.is_valid_course_code (code : String) : Bool :=
  pyDollarMatch courseCodeCore code.toList

/-- `Course.validate`.  The `isinstance(self.credits, int)` branch is
always satisfied under the `Int` model, so only the range check can
fire. -/
def Course.validate (c : Course) : List String :=
  (if isBlank c.course_code then ["Course code is required and cannot be empty"]
   else if !Course.is_valid_course_code c.course_code then
     ["Course code must be in format XXX1234 (three uppercase letters followed by four digits)"]
   else []) ++
  (if isBlank c.name then ["Course name is required and cannot be empty"] else []) ++
  (if !(decide (1 ≤ c.credits) && decide (c.credits ≤ 6)) then
     ["Credits must be between 1 and 6"] else []) ++
  (if isBlank c.instructor then ["Instructor name is required and cannot be empty"] else [])

/-- The flat dictionary `Course.to_dict` produces. -/
structure CourseDict where
  course_code : String
  name : String
  credits : Int
  instructor : String
deriving DecidableEq, Repr

def Course.to_dict (c : Course) : CourseDict :=
  ⟨c.course_code, c.name, c.credits, c.instructor⟩

def Course.from_dict (d : CourseDict) : Course :=
  ⟨d.course_code, d.name, d.credits, d.instructor⟩

/-- `Enrollment`: student ref, course ref, optional numeric grade
(Python `float`, modelled as `ℚ`), creation timestamp. -/
structure Enrollment where
  student_id : String
  course_code : String
  grade : Option ℚ
  enrollment_date : DateTime
deriving DecidableEq, Repr

/-- `Enrollment.validate`.  Under the `Option ℚ` model a present grade is
always numeric, so only the range branch of the Python check can fire. -/
def Enrollment.validate (e : Enrollment) : List String :=
  (if isBlank e.student_id then ["Student ID is required and cannot be empty"] else []) ++
  (if isBlank e.course_code then ["Course code is required and cannot be empty"] else []) ++
  (match e.grade with
   | none => []
   | some g =>
       if !(decide ((0 : ℚ) ≤ g) && decide (g ≤ (100 : ℚ))) then
         ["Grade must be between 0 and 100"] else [])

/-- `Enrollment.calculate_letter_grade`: the if/elif chain from the
source. -/
def Enrollment.calculate_letter_grade (e : Enrollment) : String :=
  match e.grade with
  | none => "N/A"
  | some g =>
      if g ≥ 90 then "A+"
      else if g ≥ 85 then "A"
      else if g ≥ 80 then "B+"
      else if g ≥ 75 then "B"
      else if g ≥ 70 then "C+"
      else if g ≥ 65 then "C"
      else if g ≥ 60 then "D+"
      else if g ≥ 55 then "D"
      else "F"

/-- The flat dictionary `Enrollment.to_dict` produces: the grade as a
number or `null`, and the timestamp as its `isoformat()` string. -/
structure EnrollmentDict where
  student_id : String
  course_code : String
  grade : Option ℚ
  enrollment_date : String
deriving DecidableEq, Repr

def Enrollment.to_dict (e : Enrollment) : EnrollmentDict :=
  ⟨e.student_id, e.course_code, e.grade, e.enrollment_date.isoformat⟩

/-- `Enrollment.from_dict`: parses the stored ISO string with
`datetime.fromisoformat`; `none` models the `ValueError` Python raises
on an unparseable date. -/
def Enrollment.from_dict (d : EnrollmentDict) : Option Enrollment :=
  (DateTime.fromisoformat d.enrollment_date).map fun dt =>
    ⟨d.student_id, d.course_code, d.grade, dt⟩

/-!
### Persistence gateway (`data/file_handler.py`)

A saved JSON document holds the collection's data array plus a metadata
block (`version`, `last_updated`, `count`).  `save_*` builds the
document from the entity list; `load_*` reads the data array back
through `from_dict` and ignores the metadata.
-/

structure Metadata where
  version : String
  last_updated : String
  count : Nat
deriving DecidableEq, Repr

structure StudentsDoc where
  students : List StudentDict
  metadata : Metadata
deriving DecidableEq, Repr

structure CoursesDoc where
  courses : List CourseDict
  metadata : Metadata
deriving DecidableEq, Repr

structure EnrollmentsDoc where
  enrollments : List EnrollmentDict
  metadata : Metadata
deriving DecidableEq, Repr

/-- `FileHandler.save_students` (`now` is `datetime.now()` at write
time). -/
def save_students (students : List Student) (now : DateTime) : StudentsDoc :=
  ⟨students.map Student.to_dict, ⟨"1.0", now.isoformat, students.length⟩⟩

/-- `FileHandler.load_students` applied to a well-formed document. -/
def load_students (doc : StudentsDoc) : List Student :=
  doc.students.map Student.from_dict

/-- `FileHandler.save_courses`. -/
def save_courses (courses : List Course) (now : DateTime) : CoursesDoc :=
  ⟨courses.map Course.to_dict, ⟨"1.0", now.isoformat, courses.length⟩⟩

/-- `FileHandler.load_courses` applied to a well-formed document. -/
def load_courses (doc : CoursesDoc) : List Course :=
  doc.courses.map Course.from_dict

/-- `FileHandler.save_enrollments`. -/
def save_enrollments (enrollments : List Enrollment) (now : DateTime) : EnrollmentsDoc :=
  ⟨enrollments.map Enrollment.to_dict, ⟨"1.0", now.isoformat, enrollments.length⟩⟩

/-- `FileHandler.load_enrollments` applied to a well-formed document;
`none` models the `ValueError` raised when a stored date fails to
parse. -/
def load_enrollments (doc : EnrollmentsDoc) : Option (List Enrollment) :=
  doc.enrollments.mapM Enrollment.from_dict

/-!
### Student service (`services/student_service.py`)

State: the in-memory `students` list and `doc`, the data array of the
backing `students.json` document.  `_save` overwrites `doc` with the
serialized list.  Operations that raise `ValueError` return
`Except.error` with the exact message and the post-exception state.
-/

structure StudentService where
  students : List Student
  doc : List StudentDict
deriving DecidableEq, Repr

/-- Replace the first element satisfying `p` (the net effect of mutating
in place the object Python's linear scan found). -/
def replaceFirst (p : α → Bool) (b : α) : List α → List α
  | [] => []
  | x :: xs => if p x then b :: xs else x :: replaceFirst p b xs

/-- Remove the first element satisfying `p` (the net effect of
`list.remove(obj)` on the object the linear scan found). -/
def removeFirst (p : α → Bool) : List α → List α
  | [] => []
  | x :: xs => if p x then xs else x :: removeFirst p xs

/-- `StudentService.get_student`: first linear-scan match by id. -/
def StudentService.get_student (students : List Student) (student_id : String) :
    Option Student :=
  students.find? (fun s => s.student_id == student_id)

/-- `StudentService._save`. -/
def StudentService.saveState (students : List Student) : StudentService :=
  ⟨students, students.map Student.to_dict⟩

/-- `StudentService.create_student`. -/
def StudentService.create_student (svc : StudentService)
    (student_id name email program : String) : Except String Student × StudentService :=
  match StudentService.get_student svc.students student_id with
  | some _ => (.error ("Student with ID " ++ student_id ++ " already exists."), svc)
  | none =>
      let student : Student := ⟨student_id, name, email, program⟩
      let errors := student.validate
      if errors.isEmpty then
        (.ok student, StudentService.saveState (svc.students ++ [student]))
      else
        (.error ("Invalid student data: " ++ joinSemi errors), svc)

/-- `StudentService.list_students` (a shallow copy of the list). -/
def StudentService.list_students (svc : StudentService) : List Student :=
  svc.students

/-- `StudentService.update_student`: applies the supplied fields to the
located entity in place, validates, and on any error restores the saved
originals before raising. -/
def StudentService.update_student (svc : StudentService) (student_id : String)
    (name email program : Option String) : Except String Student × StudentService :=
  match StudentService.get_student svc.students student_id with
  | none => (.error ("Student with ID " ++ student_id ++ " not found."), svc)
  | some student =>
      let updated : Student :=
        { student with
          name := name.getD student.name
          email := email.getD student.email
          program := program.getD student.program }
      let mutated := replaceFirst (fun s => s.student_id == student_id) updated svc.students
      let errors := updated.validate
      if errors.isEmpty then
        (.ok updated, StudentService.saveState mutated)
      else
        let reverted : Student :=
          { updated with
            name := student.name, email := student.email, program := student.program }
        (.error ("Invalid update data: " ++ joinSemi errors),
         { svc with
           students := replaceFirst (fun s => s.student_id == student_id) reverted mutated })

/-- `StudentService.delete_student`. -/
def StudentService.delete_student (svc : StudentService) (student_id : String) :
    Bool × StudentService :=
  match StudentService.get_student svc.students student_id with
  | some _ =>
      (true, StudentService.saveState
        (removeFirst (fun s => s.student_id == student_id) svc.students))
  | none => (false, svc)

/-- One `if crit: results = [x for x in results if test(crit, x)]` step of
a search method: a truthy (present, non-empty) criterion filters the
running result list, a falsy one leaves it alone. -/
def criterionStep (crit : Option String) (test : String → α → Bool) (l : List α) : List α :=
  match crit with
  | some q => if q = "" then l else l.filter (test q)
  | none => l

/-- Does `cs` start with `needle`? -/
def listStartsWith : List Char → List Char → Bool
  | [], _ => true
  | _ :: _, [] => false
  | a :: as, b :: bs => a == b && listStartsWith as bs

/-- Contiguous-substring test, Python's `needle in haystack` on strings. -/
def listContainsSub (needle : List Char) : List Char → Bool
  | [] => needle.isEmpty
  | c :: cs => listStartsWith needle (c :: cs) || listContainsSub needle cs

/-- Case-insensitive substring test (`needle.lower() in haystack.lower()`).
Python's per-string `lower` agrees with per-character `Char.toLower` on
the ASCII data this program handles. -/
def ciSubstr (needle haystack : String) : Bool :=
  listContainsSub (needle.toList.map Char.toLower) (haystack.toList.map Char.toLower)

/-- `StudentService.search_students`: the `name` criterion filters first
(case-insensitive substring), then `program` (exact match). -/
def StudentService.search_students (svc : StudentService)
    (name program : Option String) : List Student :=
  criterionStep program (fun p s => s.program == p)
    (criterionStep name (fun n s => ciSubstr n s.name) svc.students)

/-!
### Course service (`services/course_service.py`)
-/

structure CourseService where
  courses : List Course
  doc : List CourseDict
deriving DecidableEq, Repr

/-- `CourseService.get_course`. -/
def CourseService.get_course (courses : List Course) (course_code : String) :
    Option Course :=
  courses.find? (fun c => c.course_code == course_code)

/-- `CourseService._save`. -/
def CourseService.saveState (courses : List Course) : CourseService :=
  ⟨courses, courses.map Course.to_dict⟩

/-- `CourseService.create_course`. -/
def CourseService.create_course (svc : CourseService)
    (course_code name : String) (credits : Int) (instructor : String) :
    Except String Course × CourseService :=
  match CourseService.get_course svc.courses course_code with
  | some _ => (.error ("Course with code " ++ course_code ++ " already exists."), svc)
  | none =>
      let course : Course := ⟨course_code, name, credits, instructor⟩
      let errors := course.validate
      if errors.isEmpty then
        (.ok course, CourseService.saveState (svc.courses ++ [course]))
      else
        (.error ("Invalid course data: " ++ joinSemi errors), svc)

/-- `CourseService.list_courses`. -/
def CourseService.list_courses (svc : CourseService) : List Course :=
  svc.courses

/-- `CourseService.update_course`. -/
def CourseService.update_course (svc : CourseService) (course_code : String)
    (name : Option String) (credits : Option Int) (instructor : Option String) :
    Except String Course × CourseService :=
  match CourseService.get_course svc.courses course_code with
  | none => (.error ("Course with code " ++ course_code ++ " not found."), svc)
  | some course =>
      let updated : Course :=
        { course with
          name := name.getD course.name
          credits := credits.getD course.credits
          instructor := instructor.getD course.instructor }
      let mutated := replaceFirst (fun c => c.course_code == course_code) updated svc.courses
      let errors := updated.validate
      if errors.isEmpty then
        (.ok updated, CourseService.saveState mutated)
      else
        let reverted : Course :=
          { updated with
            name := course.name, credits := course.credits, instructor := course.instructor }
        (.error ("Invalid update data: " ++ joinSemi errors),
         { svc with
           courses := replaceFirst (fun c => c.course_code == course_code) reverted mutated })

/-- `CourseService.delete_course`. -/
def CourseService.delete_course (svc : CourseService) (course_code : String) :
    Bool × CourseService :=
  match CourseService.get_course svc.courses course_code with
  | some _ =>
      (true, CourseService.saveState
        (removeFirst (fun c => c.course_code == course_code) svc.courses))
  | none => (false, svc)

/-- `CourseService.search_courses`: three optional case-insensitive
substring criteria applied in sequence (code, then name, then
instructor). -/
def CourseService.search_courses (svc : CourseService)
    (course_code name instructor : Option String) : List Course :=
  criterionStep instructor (fun q c => ciSubstr q c.instructor)
    (criterionStep name (fun q c => ciSubstr q c.name)
      (criterionStep course_code (fun q c => ciSubstr q c.course_code) svc.courses))

/-!
### Enrollment service (`services/enrollment_service.py`)

State: the in-memory `enrollments` list and the backing document's data
array.  The referenced student/course lists are the read-only views the
service holds on its collaborating services; `now` stands for
`datetime.now()` at call time.
-/

structure EnrollmentService where
  enrollments : List Enrollment
  doc : List EnrollmentDict
deriving DecidableEq, Repr

/-- `EnrollmentService._save`. -/
def EnrollmentService.saveState (enrollments : List Enrollment) : EnrollmentService :=
  ⟨enrollments, enrollments.map Enrollment.to_dict⟩

/-- `EnrollmentService._get_enrollment`. -/
def EnrollmentService.get_enrollment (enrollments : List Enrollment)
    (student_id course_code : String) : Option Enrollment :=
  enrollments.find? (fun e => e.student_id == student_id && e.course_code == course_code)

/-- `EnrollmentService.enroll_student`: existence checks on both
referenced stores, duplicate-pair check, then construct/validate/append/
persist. -/
def EnrollmentService.enroll_student (students : List Student) (courses : List Course)
    (svc : EnrollmentService) (student_id course_code : String) (now : DateTime) :
    Except String Enrollment × EnrollmentService :=
  if (StudentService.get_student students student_id).isNone then
    (.error ("Student with ID " ++ student_id ++ " not found."), svc)
  else if (CourseService.get_course courses course_code).isNone then
    (.error ("Course with code " ++ course_code ++ " not found."), svc)
  else if svc.enrollments.any
      (fun e => e.student_id == student_id && e.course_code == course_code) then
    (.error ("Student " ++ student_id ++ " is already enrolled in " ++ course_code ++ "."),
     svc)
  else
    let enrollment : Enrollment := ⟨student_id, course_code, none, now⟩
    let errors := enrollment.validate
    if errors.isEmpty then
      (.ok enrollment, EnrollmentService.saveState (svc.enrollments ++ [enrollment]))
    else
      (.error ("Invalid enrollment data: " ++ joinSemi errors), svc)

/-- `EnrollmentService.assign_grade`: sets the grade on the located
record, revalidates, reverts the grade and raises on error, persists on
success. -/
def EnrollmentService.assign_grade (svc : EnrollmentService)
    (student_id course_code : String) (grade : ℚ) :
    Except String Enrollment × EnrollmentService :=
  match EnrollmentService.get_enrollment svc.enrollments student_id course_code with
  | none =>
      (.error ("Student " ++ student_id ++ " is not enrolled in course " ++
        course_code ++ "."), svc)
  | some enrollment =>
      let updated : Enrollment := { enrollment with grade := some grade }
      let mutated := replaceFirst
        (fun e => e.student_id == student_id && e.course_code == course_code)
        updated svc.enrollments
      let errors := updated.validate
      if errors.isEmpty then
        (.ok updated, EnrollmentService.saveState mutated)
      else
        let reverted : Enrollment := { updated with grade := enrollment.grade }
        (.error ("Invalid grade: " ++ joinSemi errors),
         { svc with
           enrollments := replaceFirst
             (fun e => e.student_id == student_id && e.course_code == course_code)
             reverted mutated })

/-- `EnrollmentService.unenroll_student`. -/
def EnrollmentService.unenroll_student (svc : EnrollmentService)
    (student_id course_code : String) : Bool × EnrollmentService :=
  match EnrollmentService.get_enrollment svc.enrollments student_id course_code with
  | some _ =>
      (true, EnrollmentService.saveState
        (removeFirst
          (fun e => e.student_id == student_id && e.course_code == course_code)
          svc.enrollments))
  | none => (false, svc)

/-- `EnrollmentService.get_student_enrollments`. -/
def EnrollmentService.get_student_enrollments (svc : EnrollmentService)
    (student_id : String) : List Enrollment :=
  svc.enrollments.filter (fun e => e.student_id == student_id)

/-- `EnrollmentService.get_course_enrollments`. -/
def EnrollmentService.get_course_enrollments (svc : EnrollmentService)
    (course_code : String) : List Enrollment :=
  svc.enrollments.filter (fun e => e.course_code == course_code)

/-- `EnrollmentService.get_student_gpa`: mean of the present grades among
the student's enrollments, `0.0` when there are none. -/
def EnrollmentService.get_student_gpa (svc : EnrollmentService)
    (student_id : String) : ℚ :=
  let enrollments := EnrollmentService.get_student_enrollments svc student_id
  let graded := enrollments.filter (fun e => e.grade.isSome)
  if graded.isEmpty then 0
  else (graded.map (fun e => e.grade.getD 0)).sum / (graded.length : ℚ)

/-- `EnrollmentService.get_course_average`. -/
def EnrollmentService.get_course_average (svc : EnrollmentService)
    (course_code : String) : ℚ :=
  let enrollments := EnrollmentService.get_course_enrollments svc course_code
  let graded := enrollments.filter (fun e => e.grade.isSome)
  if graded.isEmpty then 0
  else (graded.map (fun e => e.grade.getD 0)).sum / (graded.length : ℚ)

/-!
### Operation sequences over a store

One constructor per public store operation; read-only operations
(`get`/`list`/`search`) leave the state untouched in the source (they
never call `_save`), mutating ones step the state as defined above.
-/

inductive StudentOp where
  | create (student_id name email program : String)
  | get (student_id : String)
  | listAll
  | update (student_id : String) (name email program : Option String)
  | delete (student_id : String)
  | search (name program : Option String)

def applyStudentOp (svc : StudentService) : StudentOp → StudentService
  | .create student_id name email program =>
      (StudentService.create_student svc student_id name email program).2
  | .get _ => svc
  | .listAll => svc
  | .update student_id name email program =>
      (StudentService.update_student svc student_id name email program).2
  | .delete student_id => (StudentService.delete_student svc student_id).2
  | .search _ _ => svc

def runStudentOps (svc : StudentService) (ops : List StudentOp) : StudentService :=
  ops.foldl applyStudentOp svc

inductive CourseOp where
  | create (course_code name : String) (credits : Int) (instructor : String)
  | get (course_code : String)
  | listAll
  | update (course_code : String) (name : Option String) (credits : Option Int)
      (instructor : Option String)
  | delete (course_code : String)
  | search (course_code name instructor : Option String)

def applyCourseOp (svc : CourseService) : CourseOp → CourseService
  | .create course_code name credits instructor =>
      (CourseService.create_course svc course_code name credits instructor).2
  | .get _ => svc
  | .listAll => svc
  | .update course_code name credits instructor =>
      (CourseService.update_course svc course_code name credits instructor).2
  | .delete course_code => (CourseService.delete_course svc course_code).2
  | .search _ _ _ => svc

def runCourseOps (svc : CourseService) (ops : List CourseOp) : CourseService :=
  ops.foldl applyCourseOp svc

/-!
### Specification-side definitions

Written from the spec's words, for comparison with the code-side
definitions above.
-/

/-- Spec: "code matches `^[A-Z]{3}\d{4}$` exactly" — the regex core over
the whole string, with no allowance for Python's `$`-before-newline. -/
def specCodeExact (s : String) : Bool := courseCodeCore s.toList

/-- Spec: "arithmetic mean of non-absent scores among the matching
records; defined as exactly 0.0 when there are no matching records or
none of them carries a score". -/
def specMean (grades : List ℚ) : ℚ :=
  if grades = [] then 0 else grades.sum / (grades.length : ℚ)

/-- Spec: an entity satisfies a criterion when the criterion is absent
(or empty — see the empty-string claim) or its field test holds; `search`
returns the entities satisfying all supplied criteria. -/
def criterionHolds (crit : Option String) (test : String → α → Bool) (a : α) : Bool :=
  match crit with
  | none => true
  | some q => if q = "" then true else test q a

/-!
### Concrete fixtures used by witnesses
-/

def sampleStudent : Student := ⟨"S001", "Jane", "jane@x.com", "CS"⟩

def sampleStudentSvc : StudentService := StudentService.saveState [sampleStudent]

def sampleCourse : Course := ⟨"ABC1234", "Intro", 3, "Dr. X"⟩

def sampleCourseSvc : CourseService := CourseService.saveState [sampleCourse]

def sampleDate : DateTime := ⟨2024, 1, 15, 10, 30, 0, 0⟩

def sampleEnrollment : Enrollment := ⟨"S001", "ABC1234", none, sampleDate⟩

def sampleEnrollSvc : EnrollmentService := EnrollmentService.saveState [sampleEnrollment]

/-- A student whose stored identifier is blank (reachable by loading a
hand-edited or legacy backing document, which deserializes without
validation). -/
def blankIdStudent : Student := ⟨" ", "Jane", "jane@x.com", "CS"⟩

def emptyEnrollSvc : EnrollmentService := ⟨[], []⟩

def sampleGradedEnrollment : Enrollment := ⟨"S001", "ABC1234", some 85, sampleDate⟩

/-- A mixed operation sequence exercising create, update, search, delete
and a rejected duplicate create. -/
def demoStudentOps : List StudentOp :=
  [.create "S002" "Bob" "bob@x.com" "Math",
   .update "S001" (some "Janet") none none,
   .search (some "ja") none,
   .delete "S002",
   .create "S001" "Dup" "d@x.com" "CS"]

def demoCourseOps : List CourseOp :=
  [.create "XYZ9999" "Algorithms" 4 "Dr. Y",
   .update "ABC1234" none (some 5) none,
   .delete "XYZ9999",
   .create "ABC1234" "Dup" 3 "Dr. Z"]

/-!
## Helper lemmas
-/

theorem digitChar_isDigit {d : Nat} (h : d < 10) : (digitChar d).isDigit = true := by
  interval_cases d <;> decide

theorem digitChar_toNat {d : Nat} (h : d < 10) : (digitChar d).toNat = 48 + d := by
  interval_cases d <;> decide

theorem parseFixed_padChars (w : Nat) :
    ∀ (n acc : Nat) (rest : List Char), n < 10 ^ w →
      parseFixed w acc (padChars w n ++ rest) = some (acc * 10 ^ w + n, rest) := by
  induction w with
  | zero =>
      intro n acc rest h
      simp only [pow_zero, Nat.lt_one_iff] at h
      simp [padChars, parseFixed, h]
  | succ w ih =>
      intro n acc rest h
      have hp : 0 < 10 ^ w := Nat.pos_pow_of_pos w (by norm_num)
      have hq : n / 10 ^ w < 10 := by
        rw [Nat.div_lt_iff_lt_mul hp]
        rw [pow_succ] at h
        omega
      have hr : n % 10 ^ w < 10 ^ w := Nat.mod_lt _ hp
      have hmod := Nat.div_add_mod n (10 ^ w)
      simp only [padChars, List.cons_append, parseFixed, digitChar_isDigit hq, if_true,
        digitChar_toNat hq, List.append_eq]
      have hsub : 48 + n / 10 ^ w - 48 = n / 10 ^ w := Nat.add_sub_cancel_left 48 (n / 10 ^ w)
      rw [hsub, ih (n % 10 ^ w) (acc * 10 + n / 10 ^ w) rest hr]
      simp only [Option.some.injEq, Prod.mk.injEq, and_true]
      rw [pow_succ]
      calc (acc * 10 + n / 10 ^ w) * 10 ^ w + n % 10 ^ w
          = acc * (10 ^ w * 10) + (10 ^ w * (n / 10 ^ w) + n % 10 ^ w) := by ring
        _ = acc * (10 ^ w * 10) + n := by rw [hmod]

theorem parseFixed_padChars0 {w n : Nat} (rest : List Char) (h : n < 10 ^ w) :
    parseFixed w 0 (padChars w n ++ rest) = some (n, rest) := by
  have := parseFixed_padChars w n 0 rest h
  simpa using this

theorem expectChar_cons (c : Char) (rest : List Char) :
    expectChar c (c :: rest) = some rest := by
  simp [expectChar]

set_option maxHeartbeats 1600000 in
theorem DateTime.fromIso_isoChars :
    ∀ (d : DateTime), d.Valid → DateTime.fromIsoChars d.isoChars = some d := by
  rintro ⟨y, mo, da, hh, mi, ss, us⟩ hv
  dsimp only [DateTime.Valid] at hv
  obtain ⟨h1, h2, h3, h4, h5, h6, h7, h8, h9, h10⟩ := hv
  have e4 : (10 : Nat) ^ 4 = 10000 := by norm_num
  have e2 : (10 : Nat) ^ 2 = 100 := by norm_num
  have e6 : (10 : Nat) ^ 6 = 1000000 := by norm_num
  have hy : y < 10 ^ 4 := by rw [e4]; omega
  have hmo : mo < 10 ^ 2 := by rw [e2]; omega
  have hda : da < 10 ^ 2 := by rw [e2]; omega
  have hhh : hh < 10 ^ 2 := by rw [e2]; omega
  have hmi : mi < 10 ^ 2 := by rw [e2]; omega
  have hss : ss < 10 ^ 2 := by rw [e2]; omega
  have hus : us < 10 ^ 6 := by rw [e6]; omega
  simp only [DateTime.isoChars, DateTime.fromIsoChars]
  rw [parseFixed_padChars0 _ hy]
  simp only [Option.bind_eq_bind, Option.some_bind]
  rw [expectChar_cons]
  simp only [Option.bind_eq_bind, Option.some_bind]
  rw [parseFixed_padChars0 _ hmo]
  simp only [Option.bind_eq_bind, Option.some_bind]
  rw [expectChar_cons]
  simp only [Option.bind_eq_bind, Option.some_bind]
  rw [parseFixed_padChars0 _ hda]
  simp only [Option.bind_eq_bind, Option.some_bind]
  rw [expectChar_cons]
  simp only [Option.bind_eq_bind, Option.some_bind]
  rw [parseFixed_padChars0 _ hhh]
  simp only [Option.bind_eq_bind, Option.some_bind]
  rw [expectChar_cons]
  simp only [Option.bind_eq_bind, Option.some_bind]
  rw [parseFixed_padChars0 _ hmi]
  simp only [Option.bind_eq_bind, Option.some_bind]
  rw [expectChar_cons]
  simp only [Option.bind_eq_bind, Option.some_bind]
  rw [parseFixed_padChars0 _ hss]
  simp only [Option.bind_eq_bind, Option.some_bind]
  by_cases h0 : us = 0
  · subst h0
    simp
  · rw [if_neg h0]
    have : parseFixed 6 0 (padChars 6 us) = some (us, []) := by
      have := parseFixed_padChars0 ([] : List Char) hus
      simpa using this
    simp [this]

theorem student_dict_roundtrip (s : Student) :
    Student.from_dict s.to_dict = s := rfl

theorem course_dict_roundtrip (c : Course) :
    Course.from_dict c.to_dict = c := rfl

theorem enrollment_dict_roundtrip (e : Enrollment) (h : e.enrollment_date.Valid) :
    Enrollment.from_dict e.to_dict = some e := by
  show (DateTime.fromIsoChars e.enrollment_date.isoChars).map
      (fun dt => ⟨e.student_id, e.course_code, e.grade, dt⟩) = some e
  rw [DateTime.fromIso_isoChars _ h]
  rfl

theorem mapM_from_dict_map_to_dict :
    ∀ (es : List Enrollment), (∀ e ∈ es, e.enrollment_date.Valid) →
      (es.map Enrollment.to_dict).mapM Enrollment.from_dict = some es := by
  intro es
  induction es with
  | nil => intro _; rfl
  | cons e tl ih =>
      intro h
      rw [List.map_cons, List.mapM_cons]
      rw [enrollment_dict_roundtrip e (h e (List.mem_cons_self e tl))]
      rw [ih (fun x hx => h x (List.mem_cons_of_mem e hx))]
      rfl

theorem replaceFirst_replaceFirst (p : α → Bool) (b c : α) (hb : p b = true) :
    ∀ l : List α, replaceFirst p c (replaceFirst p b l) = replaceFirst p c l := by
  intro l
  induction l with
  | nil => rfl
  | cons x xs ih =>
      by_cases hx : p x = true
      · simp [replaceFirst, hx, hb]
      · simp [replaceFirst, hx, ih]

theorem replaceFirst_find?_self (p : α → Bool) :
    ∀ {l : List α} {a : α}, l.find? p = some a → replaceFirst p a l = l := by
  intro l
  induction l with
  | nil => intro a h; cases h
  | cons x xs ih =>
      intro a h
      by_cases hx : p x = true
      · rw [List.find?_cons_of_pos _ hx] at h
        cases h
        simp [replaceFirst, hx]
      · rw [List.find?_cons_of_neg _ (by simpa using hx)] at h
        simp [replaceFirst, hx, ih h]

theorem map_replaceFirst (p : α → Bool) (f : α → β) (b : α)
    (hf : ∀ x, p x = true → f x = f b) :
    ∀ l : List α, (replaceFirst p b l).map f = l.map f := by
  intro l
  induction l with
  | nil => rfl
  | cons x xs ih =>
      by_cases hx : p x = true
      · simp [replaceFirst, hx, hf x hx]
      · simp [replaceFirst, hx, ih]

theorem removeFirst_sublist (p : α → Bool) :
    ∀ l : List α, (removeFirst p l).Sublist l := by
  intro l
  induction l with
  | nil => exact List.Sublist.refl _
  | cons x xs ih =>
      by_cases hx : p x = true
      · simp [removeFirst, hx]
      · simpa [removeFirst, hx] using List.Sublist.cons₂ x ih

/-- `update_student` either succeeds or leaves the service state (list
and backing document) exactly as it was: the in-place revert restores
the located object field by field. -/
theorem update_student_state (svc : StudentService) (student_id : String)
    (name email program : Option String) :
    (StudentService.update_student svc student_id name email program).2 = svc ∨
    ∃ s, (StudentService.update_student svc student_id name email program).1 = .ok s := by
  unfold StudentService.update_student
  cases hfind : StudentService.get_student svc.students student_id with
  | none => left; rfl
  | some student =>
      dsimp only
      split
      · right; exact ⟨_, rfl⟩
      · left
        have hp : (student.student_id == student_id) = true :=
          @List.find?_some Student (fun s => s.student_id == student_id) student
            svc.students hfind
        show StudentService.mk
            (replaceFirst (fun s => s.student_id == student_id) student
              (replaceFirst (fun s => s.student_id == student_id)
                { student with
                  name := name.getD student.name
                  email := email.getD student.email
                  program := program.getD student.program } svc.students)) svc.doc = svc
        rw [replaceFirst_replaceFirst (fun s => s.student_id == student_id)
          { student with
            name := name.getD student.name
            email := email.getD student.email
            program := program.getD student.program } student hp]
        have hfind' :
            svc.students.find? (fun s : Student => s.student_id == student_id) =
              some student := hfind
        rw [replaceFirst_find?_self (fun s : Student => s.student_id == student_id) hfind']

/-- `update_course` either succeeds or leaves the service state exactly
as it was. -/
theorem update_course_state (svc : CourseService) (course_code : String)
    (name : Option String) (credits : Option Int) (instructor : Option String) :
    (CourseService.update_course svc course_code name credits instructor).2 = svc ∨
    ∃ c, (CourseService.update_course svc course_code name credits instructor).1 = .ok c := by
  unfold CourseService.update_course
  cases hfind : CourseService.get_course svc.courses course_code with
  | none => left; rfl
  | some course =>
      dsimp only
      split
      · right; exact ⟨_, rfl⟩
      · left
        have hp : (course.course_code == course_code) = true :=
          @List.find?_some Course (fun c => c.course_code == course_code) course
            svc.courses hfind
        show CourseService.mk
            (replaceFirst (fun c => c.course_code == course_code) course
              (replaceFirst (fun c => c.course_code == course_code)
                { course with
                  name := name.getD course.name
                  credits := credits.getD course.credits
                  instructor := instructor.getD course.instructor } svc.courses)) svc.doc = svc
        rw [replaceFirst_replaceFirst (fun c => c.course_code == course_code)
          { course with
            name := name.getD course.name
            credits := credits.getD course.credits
            instructor := instructor.getD course.instructor } course hp]
        have hfind' :
            svc.courses.find? (fun c : Course => c.course_code == course_code) =
              some course := hfind
        rw [replaceFirst_find?_self (fun c : Course => c.course_code == course_code) hfind']

/-- `assign_grade` either succeeds or leaves the service state exactly
as it was: the grade revert restores the located record. -/
theorem assign_grade_state (svc : EnrollmentService)
    (student_id course_code : String) (grade : ℚ) :
    (EnrollmentService.assign_grade svc student_id course_code grade).2 = svc ∨
    ∃ e, (EnrollmentService.assign_grade svc student_id course_code grade).1 = .ok e := by
  unfold EnrollmentService.assign_grade
  cases hfind : EnrollmentService.get_enrollment svc.enrollments student_id course_code with
  | none => left; rfl
  | some enrollment =>
      dsimp only
      split
      · right; exact ⟨_, rfl⟩
      · left
        have hp : (enrollment.student_id == student_id &&
            enrollment.course_code == course_code) = true :=
          @List.find?_some Enrollment
            (fun e => e.student_id == student_id && e.course_code == course_code)
            enrollment svc.enrollments hfind
        show EnrollmentService.mk
            (replaceFirst
              (fun e => e.student_id == student_id && e.course_code == course_code)
              enrollment
              (replaceFirst
                (fun e => e.student_id == student_id && e.course_code == course_code)
                { enrollment with grade := some grade } svc.enrollments)) svc.doc = svc
        rw [replaceFirst_replaceFirst
          (fun e => e.student_id == student_id && e.course_code == course_code)
          { enrollment with grade := some grade } enrollment hp]
        have hfind' :
            svc.enrollments.find?
              (fun e : Enrollment =>
                e.student_id == student_id && e.course_code == course_code) =
              some enrollment := hfind
        rw [replaceFirst_find?_self
          (fun e : Enrollment =>
            e.student_id == student_id && e.course_code == course_code) hfind']

/-!
## Claim theorems
-/

/-- C1: every operation that fails with a validation error
(`update_student`, `update_course`, `assign_grade`) leaves the target
entity's fields at their pre-operation values, the in-memory collection
unchanged, and the backing document unwritten — the whole service state
equals the pre-operation state — for every store state and every
combination of supplied field values. -/
theorem claim_C1_validation_failure_is_atomic :
    ∀ (ssvc : StudentService) (sid : String) (sn se sp : Option String)
      (csvc : CourseService) (cc : String) (cn : Option String) (ccr : Option Int)
      (ci : Option String) (esvc : EnrollmentService) (eid ecode : String) (g : ℚ),
      (∀ msg, (StudentService.update_student ssvc sid sn se sp).1 = .error msg →
        (StudentService.update_student ssvc sid sn se sp).2 = ssvc) ∧
      (∀ msg, (CourseService.update_course csvc cc cn ccr ci).1 = .error msg →
        (CourseService.update_course csvc cc cn ccr ci).2 = csvc) ∧
      (∀ msg, (EnrollmentService.assign_grade esvc eid ecode g).1 = .error msg →
        (EnrollmentService.assign_grade esvc eid ecode g).2 = esvc) := by
  intro ssvc sid sn se sp csvc cc cn ccr ci esvc eid ecode g
  refine ⟨?_, ?_, ?_⟩ <;> intro msg hmsg
  · rcases update_student_state ssvc sid sn se sp with h | ⟨s, hs⟩
    · exact h
    · rw [hs] at hmsg; cases hmsg
  · rcases update_course_state csvc cc cn ccr ci with h | ⟨c, hc⟩
    · exact h
    · rw [hc] at hmsg; cases hmsg
  · rcases assign_grade_state esvc eid ecode g with h | ⟨e, he⟩
    · exact h
    · rw [he] at hmsg; cases hmsg

/-- C1 witness: concrete validation failures (blank name on a student
update, zero credits on a course update, grade 150 on a grade
assignment) leave each concrete service state untouched. -/
theorem claim_C1_witness :
    (StudentService.update_student sampleStudentSvc "S001" (some "") none none).2 =
      sampleStudentSvc ∧
    (CourseService.update_course sampleCourseSvc "ABC1234" none (some 0) none).2 =
      sampleCourseSvc ∧
    (EnrollmentService.assign_grade sampleEnrollSvc "S001" "ABC1234" 150).2 =
      sampleEnrollSvc := by
  obtain ⟨h1, h2, h3⟩ := claim_C1_validation_failure_is_atomic
    sampleStudentSvc "S001" (some "") none none
    sampleCourseSvc "ABC1234" none (some 0) none
    sampleEnrollSvc "S001" "ABC1234" 150
  exact ⟨h1 "Invalid update data: Name is required and cannot be empty" rfl,
    h2 "Invalid update data: Credits must be between 1 and 6" rfl,
    h3 "Invalid grade: Grade must be between 0 and 100" rfl⟩

/-- C3: `create` on a Person or Offering store whose natural key is
already present fails with the duplicate-key error and returns the state
unchanged (collection and backing document), whatever the other supplied
field values are — in particular the duplicate check precedes
validation, since the error is the duplicate message even for invalid
fields. -/
theorem claim_C3_create_duplicate_key :
    ∀ (ssvc : StudentService) (sid n e p : String)
      (csvc : CourseService) (cc cn : String) (ccr : Int) (ci : String),
      ((StudentService.get_student ssvc.students sid).isSome = true →
        StudentService.create_student ssvc sid n e p =
          (.error ("Student with ID " ++ sid ++ " already exists."), ssvc)) ∧
      ((CourseService.get_course csvc.courses cc).isSome = true →
        CourseService.create_course csvc cc cn ccr ci =
          (.error ("Course with code " ++ cc ++ " already exists."), csvc)) := by
  intro ssvc sid n e p csvc cc cn ccr ci
  constructor
  · intro hs
    obtain ⟨x, hx⟩ := Option.isSome_iff_exists.mp hs
    unfold StudentService.create_student
    rw [hx]
  · intro hc
    obtain ⟨x, hx⟩ := Option.isSome_iff_exists.mp hc
    unfold CourseService.create_course
    rw [hx]

/-- C3 witness: creating a student with the existing key `"S001"` (and
otherwise invalid fields) and a course with the existing key
`"ABC1234"` (and otherwise invalid fields) fails with the duplicate
message and changes nothing. -/
theorem claim_C3_witness :
    StudentService.create_student sampleStudentSvc "S001" "" "bad" "" =
      (.error "Student with ID S001 already exists.", sampleStudentSvc) ∧
    CourseService.create_course sampleCourseSvc "ABC1234" "" 0 "" =
      (.error "Course with code ABC1234 already exists.", sampleCourseSvc) := by
  obtain ⟨h1, h2⟩ := claim_C3_create_duplicate_key
    sampleStudentSvc "S001" "" "bad" "" sampleCourseSvc "ABC1234" "" 0 ""
  exact ⟨h1 rfl, h2 rfl⟩

/-- C2 counterexample: with a blank-identifier student in the Person
store (a state reachable by loading an unvalidated document),
`enroll_student " " "ABC1234"` finds the student, finds the course, and
finds no duplicate pair — yet it fails with a validation error instead
of appending a new record, refuting the claim's unconditional "otherwise
it appends". -/
theorem claim_C2_counterexample :
    (StudentService.get_student [blankIdStudent] " ").isSome = true ∧
    (CourseService.get_course [sampleCourse] "ABC1234").isSome = true ∧
    emptyEnrollSvc.enrollments.any
      (fun e => e.student_id == " " && e.course_code == "ABC1234") = false ∧
    (EnrollmentService.enroll_student [blankIdStudent] [sampleCourse] emptyEnrollSvc
      " " "ABC1234" sampleDate).1 =
      .error "Invalid enrollment data: Student ID is required and cannot be empty" ∧
    (EnrollmentService.enroll_student [blankIdStudent] [sampleCourse] emptyEnrollSvc
      " " "ABC1234" sampleDate).2 = emptyEnrollSvc := by
  exact ⟨rfl, rfl, rfl, rfl, rfl⟩

/-- C2 (amended): `enroll_student` fails not-found when the personId is
absent, not-found when the offeringCode is absent, duplicate when the
pair already exists; otherwise it constructs a record with absent score
and the current timestamp and validates it — appending, persisting and
returning it when validation passes (as it always does when the matched
keys are non-blank), and failing with a validation error, changing
nothing, when it does not. -/
theorem claim_C2_enroll_cases :
    ∀ (students : List Student) (courses : List Course) (svc : EnrollmentService)
      (sid code : String) (now : DateTime),
      ((StudentService.get_student students sid).isNone = true →
        EnrollmentService.enroll_student students courses svc sid code now =
          (.error ("Student with ID " ++ sid ++ " not found."), svc)) ∧
      ((StudentService.get_student students sid).isNone = false →
        (CourseService.get_course courses code).isNone = true →
        EnrollmentService.enroll_student students courses svc sid code now =
          (.error ("Course with code " ++ code ++ " not found."), svc)) ∧
      ((StudentService.get_student students sid).isNone = false →
        (CourseService.get_course courses code).isNone = false →
        svc.enrollments.any
          (fun e => e.student_id == sid && e.course_code == code) = true →
        EnrollmentService.enroll_student students courses svc sid code now =
          (.error ("Student " ++ sid ++ " is already enrolled in " ++ code ++ "."), svc)) ∧
      ((StudentService.get_student students sid).isNone = false →
        (CourseService.get_course courses code).isNone = false →
        svc.enrollments.any
          (fun e => e.student_id == sid && e.course_code == code) = false →
        (Enrollment.validate ⟨sid, code, none, now⟩).isEmpty = true →
        EnrollmentService.enroll_student students courses svc sid code now =
          (.ok ⟨sid, code, none, now⟩,
           EnrollmentService.saveState (svc.enrollments ++ [⟨sid, code, none, now⟩]))) ∧
      ((StudentService.get_student students sid).isNone = false →
        (CourseService.get_course courses code).isNone = false →
        svc.enrollments.any
          (fun e => e.student_id == sid && e.course_code == code) = false →
        (Enrollment.validate ⟨sid, code, none, now⟩).isEmpty = false →
        EnrollmentService.enroll_student students courses svc sid code now =
          (.error ("Invalid enrollment data: " ++
            joinSemi (Enrollment.validate ⟨sid, code, none, now⟩)), svc)) := by
  intro students courses svc sid code now
  refine ⟨?_, ?_, ?_, ?_, ?_⟩
  · intro h1
    simp [EnrollmentService.enroll_student, h1]
  · intro h1 h2
    simp [EnrollmentService.enroll_student, h1, h2]
  · intro h1 h2 h3
    simp [EnrollmentService.enroll_student, h1, h2, h3]
  · intro h1 h2 h3 h4
    simp [EnrollmentService.enroll_student, h1, h2, h3, h4]
  · intro h1 h2 h3 h4
    simp [EnrollmentService.enroll_student, h1, h2, h3, h4]

/-- C2 witness: the success path at concrete stores — enrolling `"S001"`
in `"ABC1234"` appends the record with absent score and the call-time
timestamp, and persists. -/
theorem claim_C2_witness :
    EnrollmentService.enroll_student [sampleStudent] [sampleCourse] emptyEnrollSvc
      "S001" "ABC1234" sampleDate =
      (.ok ⟨"S001", "ABC1234", none, sampleDate⟩,
       EnrollmentService.saveState
         (emptyEnrollSvc.enrollments ++ [⟨"S001", "ABC1234", none, sampleDate⟩])) := by
  have h := claim_C2_enroll_cases [sampleStudent] [sampleCourse] emptyEnrollSvc
    "S001" "ABC1234" sampleDate
  exact h.2.2.2.1 rfl rfl rfl (by decide)

/-- C4: for every collection, `save` followed by `load` reproduces an
equal list of entities — exactly for students and courses, and for
enrollments whenever the stored timestamps lie in `datetime`'s own field
ranges, with scores (including absent ones) passed through untouched and
timestamps round-tripped through their ISO-8601 string form. -/
theorem claim_C4_save_load_roundtrip :
    (∀ (students : List Student) (now : DateTime),
        load_students (save_students students now) = students) ∧
    (∀ (courses : List Course) (now : DateTime),
        load_courses (save_courses courses now) = courses) ∧
    (∀ (enrollments : List Enrollment) (now : DateTime),
        (∀ e ∈ enrollments, e.enrollment_date.Valid) →
        load_enrollments (save_enrollments enrollments now) = some enrollments) := by
  refine ⟨?_, ?_, ?_⟩
  · intro students now
    show List.map Student.from_dict (List.map Student.to_dict students) = students
    rw [List.map_map]
    have h : Student.from_dict ∘ Student.to_dict = id := rfl
    rw [h, List.map_id]
  · intro courses now
    show List.map Course.from_dict (List.map Course.to_dict courses) = courses
    rw [List.map_map]
    have h : Course.from_dict ∘ Course.to_dict = id := rfl
    rw [h, List.map_id]
  · intro enrollments now h
    exact mapM_from_dict_map_to_dict enrollments h

/-- C4 witness: a concrete two-record enrollment collection (one scored
85, one unscored) survives the save/load round trip. -/
theorem claim_C4_witness :
    load_enrollments
      (save_enrollments [sampleGradedEnrollment, sampleEnrollment] sampleDate) =
      some [sampleGradedEnrollment, sampleEnrollment] :=
  claim_C4_save_load_roundtrip.2.2 [sampleGradedEnrollment, sampleEnrollment]
    sampleDate (by decide)

/-- C5: `calculate_letter_grade` realises exactly the band table with
inclusive lower bounds, the highest matching band winning, and `"N/A"`
for an absent score. -/
theorem claim_C5_letter_grade_bands :
    ∀ (e : Enrollment),
      (e.grade = none → e.calculate_letter_grade = "N/A") ∧
      (∀ g : ℚ, e.grade = some g →
        (90 ≤ g → e.calculate_letter_grade = "A+") ∧
        (85 ≤ g ∧ g < 90 → e.calculate_letter_grade = "A") ∧
        (80 ≤ g ∧ g < 85 → e.calculate_letter_grade = "B+") ∧
        (75 ≤ g ∧ g < 80 → e.calculate_letter_grade = "B") ∧
        (70 ≤ g ∧ g < 75 → e.calculate_letter_grade = "C+") ∧
        (65 ≤ g ∧ g < 70 → e.calculate_letter_grade = "C") ∧
        (60 ≤ g ∧ g < 65 → e.calculate_letter_grade = "D+") ∧
        (55 ≤ g ∧ g < 60 → e.calculate_letter_grade = "D") ∧
        (g < 55 → e.calculate_letter_grade = "F")) := by
  intro e
  constructor
  · intro h
    simp [Enrollment.calculate_letter_grade, h]
  · intro g hg
    simp only [Enrollment.calculate_letter_grade, hg]
    refine ⟨fun h => ?_, fun h => ?_, fun h => ?_, fun h => ?_, fun h => ?_,
      fun h => ?_, fun h => ?_, fun h => ?_, fun h => ?_⟩
    · split_ifs <;> first | rfl | (exfalso; linarith)
    · obtain ⟨h1, h2⟩ := h
      split_ifs <;> first | rfl | (exfalso; linarith)
    · obtain ⟨h1, h2⟩ := h
      split_ifs <;> first | rfl | (exfalso; linarith)
    · obtain ⟨h1, h2⟩ := h
      split_ifs <;> first | rfl | (exfalso; linarith)
    · obtain ⟨h1, h2⟩ := h
      split_ifs <;> first | rfl | (exfalso; linarith)
    · obtain ⟨h1, h2⟩ := h
      split_ifs <;> first | rfl | (exfalso; linarith)
    · obtain ⟨h1, h2⟩ := h
      split_ifs <;> first | rfl | (exfalso; linarith)
    · obtain ⟨h1, h2⟩ := h
      split_ifs <;> first | rfl | (exfalso; linarith)
    · split_ifs <;> first | rfl | (exfalso; linarith)

/-- C5 witness: the nine boundary scores and the absent score from the
claim, each mapped through `calculate_letter_grade`. -/
theorem claim_C5_witness :
    Enrollment.calculate_letter_grade ⟨"S001", "ABC1234", some 90, sampleDate⟩ = "A+" ∧
    Enrollment.calculate_letter_grade ⟨"S001", "ABC1234", some 89, sampleDate⟩ = "A" ∧
    Enrollment.calculate_letter_grade ⟨"S001", "ABC1234", some 84, sampleDate⟩ = "B+" ∧
    Enrollment.calculate_letter_grade ⟨"S001", "ABC1234", some 79, sampleDate⟩ = "B" ∧
    Enrollment.calculate_letter_grade ⟨"S001", "ABC1234", some 74, sampleDate⟩ = "C+" ∧
    Enrollment.calculate_letter_grade ⟨"S001", "ABC1234", some 69, sampleDate⟩ = "C" ∧
    Enrollment.calculate_letter_grade ⟨"S001", "ABC1234", some 64, sampleDate⟩ = "D+" ∧
    Enrollment.calculate_letter_grade ⟨"S001", "ABC1234", some 59, sampleDate⟩ = "D" ∧
    Enrollment.calculate_letter_grade ⟨"S001", "ABC1234", some 54, sampleDate⟩ = "F" ∧
    Enrollment.calculate_letter_grade ⟨"S001", "ABC1234", none, sampleDate⟩ = "N/A" := by
  refine ⟨?_, ?_, ?_, ?_, ?_, ?_, ?_, ?_, ?_, ?_⟩
  · exact ((claim_C5_letter_grade_bands _).2 90 rfl).1 (by decide)
  · exact ((claim_C5_letter_grade_bands _).2 89 rfl).2.1 ⟨by decide, by decide⟩
  · exact ((claim_C5_letter_grade_bands _).2 84 rfl).2.2.1 ⟨by decide, by decide⟩
  · exact ((claim_C5_letter_grade_bands _).2 79 rfl).2.2.2.1 ⟨by decide, by decide⟩
  · exact ((claim_C5_letter_grade_bands _).2 74 rfl).2.2.2.2.1 ⟨by decide, by decide⟩
  · exact ((claim_C5_letter_grade_bands _).2 69 rfl).2.2.2.2.2.1 ⟨by decide, by decide⟩
  · exact ((claim_C5_letter_grade_bands _).2 64 rfl).2.2.2.2.2.2.1 ⟨by decide, by decide⟩
  · exact ((claim_C5_letter_grade_bands _).2 59 rfl).2.2.2.2.2.2.2.1 ⟨by decide, by decide⟩
  · exact ((claim_C5_letter_grade_bands _).2 54 rfl).2.2.2.2.2.2.2.2 (by decide)
  · exact (claim_C5_letter_grade_bands _).1 rfl

/-- C6: the code's course-code check, built on `re.match` with `$`,
accepts `"ABC1234\n"` — a code that does not match `^[A-Z]{3}\d{4}$`
exactly — so `validate()` returns no error for it, contradicting the
claim (and the method's own docstring); ordinary violations such as the
lowercase `"ab1234"` are still rejected with the code-format message,
and a well-formed offering validates cleanly. -/
theorem claim_C6_trailing_newline_code_accepted :
    Course.validate ⟨"ABC1234\n", "Intro", 3, "Dr. X"⟩ = [] ∧
    specCodeExact "ABC1234\n" = false ∧
    Course.validate ⟨"ab1234", "Intro", 3, "Dr. X"⟩ =
      ["Course code must be in format XXX1234 (three uppercase letters followed by four digits)"] ∧
    Course.validate ⟨"ABC1234", "", 0, " "⟩ =
      ["Course name is required and cannot be empty",
       "Credits must be between 1 and 6",
       "Instructor name is required and cannot be empty"] ∧
    Course.validate sampleCourse = [] := by
  exact ⟨rfl, rfl, rfl, rfl, rfl⟩

/-- Bridge between the code's filter/`map getD` pipeline over graded
records and `filterMap` over the raw grades. -/
theorem map_getD_filter_isSome {α : Type} (f : α → Option ℚ) :
    ∀ l : List α,
      (l.filter (fun x => (f x).isSome)).map (fun x => (f x).getD 0) = l.filterMap f := by
  intro l
  induction l with
  | nil => rfl
  | cons x xs ih => cases hx : f x <;> simp [List.filter_cons, List.filterMap_cons, hx, ih]

/-- The common mean computation of `get_student_gpa` and
`get_course_average`, expressed as the spec's mean of the non-absent
scores. -/
theorem gradedMean_eq_specMean :
    ∀ (l : List Enrollment),
      (if (l.filter (fun e => e.grade.isSome)).isEmpty then (0 : ℚ)
       else ((l.filter (fun e => e.grade.isSome)).map (fun e => e.grade.getD 0)).sum /
         (((l.filter (fun e => e.grade.isSome)).length : ℚ))) =
      specMean (l.filterMap (fun e => e.grade)) := by
  intro l
  rw [← map_getD_filter_isSome (fun e => e.grade) l]
  generalize l.filter (fun e => e.grade.isSome) = graded
  cases graded with
  | nil => simp [specMean]
  | cons a tl => simp [specMean, List.length_map]

/-- C7: `get_student_gpa` and `get_course_average` return the arithmetic
mean of the non-absent scores among the matching records, and exactly
`0.0` when no matching record carries a score; with two records scored
70 and 90 on the same offering the course average is exactly 80, and on
an empty store it is exactly 0. -/
theorem claim_C7_average_score :
    ∀ (svc : EnrollmentService) (sid code : String),
      EnrollmentService.get_student_gpa svc sid =
        specMean ((svc.enrollments.filter (fun e => e.student_id == sid)).filterMap
          (fun e => e.grade)) ∧
      EnrollmentService.get_course_average svc code =
        specMean ((svc.enrollments.filter (fun e => e.course_code == code)).filterMap
          (fun e => e.grade)) ∧
      EnrollmentService.get_course_average
        (EnrollmentService.saveState
          [⟨"S001", "ABC1234", some 70, sampleDate⟩,
           ⟨"S002", "ABC1234", some 90, sampleDate⟩]) "ABC1234" = 80 ∧
      EnrollmentService.get_course_average emptyEnrollSvc "ABC1234" = 0 := by
  intro svc sid code
  refine ⟨?_, ?_, ?_, ?_⟩
  · exact gradedMean_eq_specMean (svc.enrollments.filter (fun e => e.student_id == sid))
  · exact gradedMean_eq_specMean (svc.enrollments.filter (fun e => e.course_code == code))
  · have h := gradedMean_eq_specMean
      (((EnrollmentService.saveState
        [⟨"S001", "ABC1234", some 70, sampleDate⟩,
         ⟨"S002", "ABC1234", some 90, sampleDate⟩]) : EnrollmentService).enrollments.filter
        (fun e => e.course_code == "ABC1234"))
    refine Eq.trans h ?_
    show specMean [(70 : ℚ), (90 : ℚ)] = 80
    simp only [specMean, List.sum_cons, List.sum_nil, List.length_cons, List.length_nil,
      List.cons_ne_nil, if_false]
    norm_num
  · rfl

/-- A single `criterionStep` is the filter by the corresponding
spec-side criterion. -/
theorem criterionStep_eq_filter {α : Type} (crit : Option String)
    (test : String → α → Bool) (l : List α) :
    criterionStep crit test l = l.filter (criterionHolds crit test) := by
  rcases crit with _ | q
  · show l = l.filter (fun _ => true)
    rw [List.filter_true]
  · by_cases hq : q = ""
    · subst hq
      show l = l.filter (fun _ => true)
      rw [List.filter_true]
    · show (if q = "" then l else l.filter (test q)) =
        l.filter (@criterionHolds α (some q) test)
      rw [if_neg hq]
      apply List.filter_congr
      intro a _
      simp [criterionHolds, hq]

/-- C8: `search_students` and `search_courses` return exactly the
entities satisfying all supplied criteria ANDed together — each a
case-insensitive substring match on its field except the exact-match
Person `program` criterion — and the result is a sublist of the live
collection, hence in insertion order; being pure reads, the searches
have no effect on the collection or the backing document. -/
theorem claim_C8_search_is_conjunctive_filter :
    ∀ (ssvc : StudentService) (n p : Option String)
      (csvc : CourseService) (cc cn ci : Option String),
      StudentService.search_students ssvc n p =
        ssvc.students.filter (fun s =>
          criterionHolds n (fun q s => ciSubstr q s.name) s &&
          criterionHolds p (fun q s => s.program == q) s) ∧
      (StudentService.search_students ssvc n p).Sublist ssvc.students ∧
      CourseService.search_courses csvc cc cn ci =
        csvc.courses.filter (fun c =>
          criterionHolds cc (fun q c => ciSubstr q c.course_code) c &&
          (criterionHolds cn (fun q c => ciSubstr q c.name) c &&
           criterionHolds ci (fun q c => ciSubstr q c.instructor) c)) ∧
      (CourseService.search_courses csvc cc cn ci).Sublist csvc.courses ∧
      applyStudentOp ssvc (StudentOp.search n p) = ssvc ∧
      applyCourseOp csvc (CourseOp.search cc cn ci) = csvc := by
  intro ssvc n p csvc cc cn ci
  have hs : StudentService.search_students ssvc n p =
      ssvc.students.filter (fun s =>
        criterionHolds n (fun q s => ciSubstr q s.name) s &&
        criterionHolds p (fun q s => s.program == q) s) := by
    unfold StudentService.search_students
    rw [criterionStep_eq_filter, criterionStep_eq_filter, List.filter_filter]
    apply List.filter_congr
    intro a _
    exact Bool.and_comm _ _
  have hc : CourseService.search_courses csvc cc cn ci =
      csvc.courses.filter (fun c =>
        criterionHolds cc (fun q c => ciSubstr q c.course_code) c &&
        (criterionHolds cn (fun q c => ciSubstr q c.name) c &&
         criterionHolds ci (fun q c => ciSubstr q c.instructor) c)) := by
    unfold CourseService.search_courses
    rw [criterionStep_eq_filter, criterionStep_eq_filter, criterionStep_eq_filter,
      List.filter_filter, List.filter_filter]
    apply List.filter_congr
    intro a _
    simp [Bool.and_comm, Bool.and_left_comm, Bool.and_assoc]
  refine ⟨hs, ?_, hc, ?_, rfl, rfl⟩
  · rw [hs]; exact List.filter_sublist _
  · rw [hc]; exact List.filter_sublist _

/-- C9: an empty-string search criterion behaves exactly like an absent
one — it applies no filter — so a search whose criteria are all the
empty string returns the whole collection in insertion order. -/
theorem claim_C9_empty_string_criterion_ignored :
    ∀ (ssvc : StudentService) (n p : Option String)
      (csvc : CourseService) (c1 c2 c3 : Option String),
      StudentService.search_students ssvc (some "") p =
        StudentService.search_students ssvc none p ∧
      StudentService.search_students ssvc n (some "") =
        StudentService.search_students ssvc n none ∧
      StudentService.search_students ssvc (some "") (some "") = ssvc.students ∧
      CourseService.search_courses csvc (some "") c2 c3 =
        CourseService.search_courses csvc none c2 c3 ∧
      CourseService.search_courses csvc c1 (some "") c3 =
        CourseService.search_courses csvc c1 none c3 ∧
      CourseService.search_courses csvc c1 c2 (some "") =
        CourseService.search_courses csvc c1 c2 none ∧
      CourseService.search_courses csvc (some "") (some "") (some "") = csvc.courses := by
  intro ssvc n p csvc c1 c2 c3
  refine ⟨?_, ?_, ?_, ?_, ?_, ?_, ?_⟩ <;>
    simp [StudentService.search_students, CourseService.search_courses, criterionStep]

/-- `update_student` never changes the sequence of natural keys, in any
branch: only non-key fields are written (or reverted). -/
theorem update_student_keys (svc : StudentService) (student_id : String)
    (name email program : Option String) :
    ((StudentService.update_student svc student_id name email program).2).students.map
        Student.student_id =
      svc.students.map Student.student_id := by
  unfold StudentService.update_student
  cases hfind : StudentService.get_student svc.students student_id with
  | none => rfl
  | some student =>
      have hp : (student.student_id == student_id) = true :=
        @List.find?_some Student (fun s => s.student_id == student_id) student
          svc.students hfind
      dsimp only
      split
      · show (replaceFirst (fun s => s.student_id == student_id)
            { student with
              name := name.getD student.name
              email := email.getD student.email
              program := program.getD student.program } svc.students).map Student.student_id =
          svc.students.map Student.student_id
        apply map_replaceFirst
        intro x hx
        have hx' : x.student_id = student_id := eq_of_beq hx
        have hs' : student.student_id = student_id := eq_of_beq hp
        show x.student_id = student.student_id
        rw [hx', hs']
      · show (replaceFirst (fun s => s.student_id == student_id) student
            (replaceFirst (fun s => s.student_id == student_id)
              { student with
                name := name.getD student.name
                email := email.getD student.email
                program := program.getD student.program }
              svc.students)).map Student.student_id =
          svc.students.map Student.student_id
        rw [replaceFirst_replaceFirst (fun s => s.student_id == student_id)
          { student with
            name := name.getD student.name
            email := email.getD student.email
            program := program.getD student.program } student hp]
        have hfind' :
            svc.students.find? (fun s : Student => s.student_id == student_id) =
              some student := hfind
        rw [replaceFirst_find?_self (fun s : Student => s.student_id == student_id) hfind']

/-- `update_course` never changes the sequence of natural keys. -/
theorem update_course_keys (svc : CourseService) (course_code : String)
    (name : Option String) (credits : Option Int) (instructor : Option String) :
    ((CourseService.update_course svc course_code name credits instructor).2).courses.map
        Course.course_code =
      svc.courses.map Course.course_code := by
  unfold CourseService.update_course
  cases hfind : CourseService.get_course svc.courses course_code with
  | none => rfl
  | some course =>
      have hp : (course.course_code == course_code) = true :=
        @List.find?_some Course (fun c => c.course_code == course_code) course
          svc.courses hfind
      dsimp only
      split
      · show (replaceFirst (fun c => c.course_code == course_code)
            { course with
              name := name.getD course.name
              credits := credits.getD course.credits
              instructor := instructor.getD course.instructor } svc.courses).map
            Course.course_code =
          svc.courses.map Course.course_code
        apply map_replaceFirst
        intro x hx
        have hx' : x.course_code = course_code := eq_of_beq hx
        have hs' : course.course_code = course_code := eq_of_beq hp
        show x.course_code = course.course_code
        rw [hx', hs']
      · show (replaceFirst (fun c => c.course_code == course_code) course
            (replaceFirst (fun c => c.course_code == course_code)
              { course with
                name := name.getD course.name
                credits := credits.getD course.credits
                instructor := instructor.getD course.instructor }
              svc.courses)).map Course.course_code =
          svc.courses.map Course.course_code
        rw [replaceFirst_replaceFirst (fun c => c.course_code == course_code)
          { course with
            name := name.getD course.name
            credits := credits.getD course.credits
            instructor := instructor.getD course.instructor } course hp]
        have hfind' :
            svc.courses.find? (fun c : Course => c.course_code == course_code) =
              some course := hfind
        rw [replaceFirst_find?_self (fun c : Course => c.course_code == course_code) hfind']

/-- Each student-store operation preserves distinctness of the stored
natural keys. -/
theorem applyStudentOp_nodup (svc : StudentService) (op : StudentOp)
    (h : (svc.students.map Student.student_id).Nodup) :
    (((applyStudentOp svc op).students).map Student.student_id).Nodup := by
  cases op with
  | get sid => exact h
  | listAll => exact h
  | search n p => exact h
  | update sid n e p =>
      show (((StudentService.update_student svc sid n e p).2).students.map
        Student.student_id).Nodup
      rw [update_student_keys]
      exact h
  | delete sid =>
      show (((StudentService.delete_student svc sid).2).students.map
        Student.student_id).Nodup
      unfold StudentService.delete_student
      cases hfind : StudentService.get_student svc.students sid with
      | none => exact h
      | some s =>
          exact List.Nodup.sublist
            (List.Sublist.map Student.student_id (removeFirst_sublist _ _)) h
  | create sid n e p =>
      show (((StudentService.create_student svc sid n e p).2).students.map
        Student.student_id).Nodup
      unfold StudentService.create_student
      cases hfind : StudentService.get_student svc.students sid with
      | some s => exact h
      | none =>
          dsimp only
          split
          · show ((svc.students ++ [(⟨sid, n, e, p⟩ : Student)]).map Student.student_id).Nodup
            rw [List.map_append, List.nodup_append]
            refine ⟨h, List.nodup_singleton _, ?_⟩
            intro a ha hb
            have hb' : a = sid := by simpa using hb
            subst hb'
            obtain ⟨x, hx, hxe⟩ := List.mem_map.mp ha
            have := List.find?_eq_none.mp hfind x hx
            exact this (by simp [hxe])
          · exact h

/-- Each course-store operation preserves distinctness of the stored
natural keys. -/
theorem applyCourseOp_nodup (svc : CourseService) (op : CourseOp)
    (h : (svc.courses.map Course.course_code).Nodup) :
    (((applyCourseOp svc op).courses).map Course.course_code).Nodup := by
  cases op with
  | get code => exact h
  | listAll => exact h
  | search c1 c2 c3 => exact h
  | update code n cr i =>
      show (((CourseService.update_course svc code n cr i).2).courses.map
        Course.course_code).Nodup
      rw [update_course_keys]
      exact h
  | delete code =>
      show (((CourseService.delete_course svc code).2).courses.map
        Course.course_code).Nodup
      unfold CourseService.delete_course
      cases hfind : CourseService.get_course svc.courses code with
      | none => exact h
      | some c =>
          exact List.Nodup.sublist
            (List.Sublist.map Course.course_code (removeFirst_sublist _ _)) h
  | create code n cr i =>
      show (((CourseService.create_course svc code n cr i).2).courses.map
        Course.course_code).Nodup
      unfold CourseService.create_course
      cases hfind : CourseService.get_course svc.courses code with
      | some c => exact h
      | none =>
          dsimp only
          split
          · show ((svc.courses ++ [(⟨code, n, cr, i⟩ : Course)]).map Course.course_code).Nodup
            rw [List.map_append, List.nodup_append]
            refine ⟨h, List.nodup_singleton _, ?_⟩
            intro a ha hb
            have hb' : a = code := by simpa using hb
            subst hb'
            obtain ⟨x, hx, hxe⟩ := List.mem_map.mp ha
            have := List.find?_eq_none.mp hfind x hx
            exact this (by simp [hxe])
          · exact h

theorem runStudentOps_nodup :
    ∀ (ops : List StudentOp) (svc : StudentService),
      (svc.students.map Student.student_id).Nodup →
      (((runStudentOps svc ops).students).map Student.student_id).Nodup := by
  intro ops
  induction ops with
  | nil => intro svc h; exact h
  | cons op tl ih =>
      intro svc h
      exact ih (applyStudentOp svc op) (applyStudentOp_nodup svc op h)

theorem runCourseOps_nodup :
    ∀ (ops : List CourseOp) (svc : CourseService),
      (svc.courses.map Course.course_code).Nodup →
      (((runCourseOps svc ops).courses).map Course.course_code).Nodup := by
  intro ops
  induction ops with
  | nil => intro svc h; exact h
  | cons op tl ih =>
      intro svc h
      exact ih (applyCourseOp svc op) (applyCourseOp_nodup svc op h)

/-- C10: no operation changes an existing entity's natural key (`update`
writes only non-key fields, `create` rejects present keys), so any
sequence of create/get/list/update/delete/search operations started from
a collection with pairwise-distinct keys ends with pairwise-distinct
keys, for both the Person and the Offering store. -/
theorem claim_C10_natural_keys_stay_distinct :
    ∀ (sops : List StudentOp) (ssvc : StudentService)
      (cops : List CourseOp) (csvc : CourseService),
      ((ssvc.students.map Student.student_id).Nodup →
        (((runStudentOps ssvc sops).students).map Student.student_id).Nodup) ∧
      ((csvc.courses.map Course.course_code).Nodup →
        (((runCourseOps csvc cops).courses).map Course.course_code).Nodup) := by
  intro sops ssvc cops csvc
  exact ⟨runStudentOps_nodup sops ssvc, runCourseOps_nodup cops csvc⟩

/-- C10 witness: running a concrete mixed operation sequence (create,
update, search, delete, rejected duplicate create) on each sample store
keeps the keys pairwise distinct. -/
theorem claim_C10_witness :
    (((runStudentOps sampleStudentSvc demoStudentOps).students).map
      Student.student_id).Nodup ∧
    (((runCourseOps sampleCourseSvc demoCourseOps).courses).map
      Course.course_code).Nodup := by
  obtain ⟨h1, h2⟩ := claim_C10_natural_keys_stay_distinct
    demoStudentOps sampleStudentSvc demoCourseOps sampleCourseSvc
  exact ⟨h1 (by decide), h2 (by decide)⟩

end StudentManagement
